import Mathlib

/-!
Verification of the auth core of the Stellarium trading platform:
the JWT token service (internal/auth/jwt.go) and the credential
service (internal/auth/service.go), checked against the design spec.

Conventions of the embedding:
* Go `time.Time` / unix instants are `Int` ticks; every operation takes
  the current instant `now` explicitly (the Go code reads the clock via
  `time.Now()`; the clock is frozen for the duration of one call).
* Go `(T, error)` results are `Except GoErr T`.
* A serialized JWT string is modelled by `RawToken`: either garbage that
  the parser rejects, or a claims payload together with the algorithm
  named in its header and the key that produced its signature.
* `jwt.ParseWithClaims` of golang-jwt v5 verifies the signature AND runs
  the registered-claims validator, which rejects an expired `exp`, before
  returning; `parseWithClaims` below reproduces that order.
* The store backing the repository is explicit state `σ`; credential
  service operations return the result paired with the state of the
  store after the call.
-/

deriving instance DecidableEq for Except

namespace Stellarium

/-- The error identities of the auth package: the named sentinel errors of
service.go and jwt.go, plus `other` for the unclassified internal-failure
channel (database faults, bcrypt faults, and so on). -/
inductive GoErr where
  | invalidCredentials
  | userExists
  | userNotFound
  | invalidToken
  | expiredToken
  | other (msg : String)
deriving DecidableEq, Repr

/-- Claims payload of jwt.go: UserID, Type ("access" or "refresh"), and the
registered claims ExpiresAt, IssuedAt, Subject. -/
structure Claims where
  userID : String
  type : String
  expiresAt : Int
  issuedAt : Int
  subject : String
deriving DecidableEq, Repr

/-- A token string as the parser sees it: unparseable garbage, or a claims
payload with the header algorithm `alg` and the secret `key` whose HMAC
produced the signature. -/
inductive RawToken where
  | malformed (raw : String)
  | signed (claims : Claims) (alg : String) (key : String)
deriving DecidableEq, Repr

/-- The failure classes of golang-jwt v5 parsing that this code can hit. -/
inductive ParseError where
  | malformedToken
  | keyfuncError
  | signatureInvalid
  | tokenExpired
deriving DecidableEq, Repr

/-- The algorithms implemented by `*jwt.SigningMethodHMAC`, which the
keyfunc in validateToken accepts. -/
def isHMACAlg (alg : String) : Bool :=
  alg == "HS256" || alg == "HS384" || alg == "HS512"

/-- jwt.ParseWithClaims with the keyfunc of jwt.go: reject a non-HMAC
header algorithm, verify the signature against the service secret, then
run the default claims validator of golang-jwt v5, which fails with
ErrTokenExpired unless `now` is strictly before the embedded expiry. -/
def parseWithClaims (secret : String) (now : Int) :
    RawToken → Except ParseError Claims
  | .malformed _ => .error .malformedToken
  | .signed c alg key =>
    if ¬ isHMACAlg alg then .error .keyfuncError
    else if key ≠ secret then .error .signatureInvalid
    else if ¬ (now < c.expiresAt) then .error .tokenExpired
    else .ok c

/-- jwtService of jwt.go: the symmetric secret and the two TTLs, in
seconds. -/
structure jwtService where
  secret : String
  accessTokenTTL : Int
  refreshTokenTTL : Int
deriving DecidableEq, Repr

/-- NewJWTService: the refresh TTL is fixed at 7 days; only the access TTL
comes from configuration. -/
def NewJWTService (secret : String) (accessTokenTTL : Int) : jwtService :=
  ⟨secret, accessTokenTTL, 24 * 7 * 3600⟩

/-- GenerateAccessToken: claims with kind "access", expiry now+accessTTL,
issued-at now, subject the user id, signed HS256 with the service secret.
(Signing never fails for HMAC on a marshallable payload.) -/
def jwtService.GenerateAccessToken (j : jwtService) (now : Int)
    (userID : String) : RawToken :=
  .signed ⟨userID, "access", now + j.accessTokenTTL, now, userID⟩ "HS256" j.secret

/-- GenerateRefreshToken: same with kind "refresh" and the refresh TTL. -/
def jwtService.GenerateRefreshToken (j : jwtService) (now : Int)
    (userID : String) : RawToken :=
  .signed ⟨userID, "refresh", now + j.refreshTokenTTL, now, userID⟩ "HS256" j.secret

/-- validateToken of jwt.go: any parse failure collapses to ErrInvalidToken;
then the kind is compared, then the (dead, see
`validateToken_never_expired`) explicit expiry re-check, then the user id
is returned. -/
def jwtService.validateToken (j : jwtService) (now : Int) (tok : RawToken)
    (tokenType : String) : Except GoErr String :=
  match parseWithClaims j.secret now tok with
  | .error _ => .error .invalidToken
  | .ok claims =>
    if claims.type ≠ tokenType then .error .invalidToken
    else if claims.expiresAt < now then .error .expiredToken
    else .ok claims.userID

/-- ValidateAccessToken requires kind "access". -/
def jwtService.ValidateAccessToken (j : jwtService) (now : Int)
    (tok : RawToken) : Except GoErr String :=
  j.validateToken now tok "access"

/-- ValidateRefreshToken requires kind "refresh". -/
def jwtService.ValidateRefreshToken (j : jwtService) (now : Int)
    (tok : RawToken) : Except GoErr String :=
  j.validateToken now tok "refresh"

/-! ## The credential service (internal/auth/service.go, models.go) -/

/-- The User record of models.go. Timestamps are Int instants; a zero
value stands for the Go zero time. -/
structure User where
  id : String
  email : String
  username : String
  firstName : String
  lastName : String
  passwordHash : String
  avatar : String
  isActive : Bool
  createdAt : Int
  updatedAt : Int
  lastLoginAt : Int
deriving DecidableEq, Repr

/-- RegisterRequest of models.go. -/
structure RegisterRequest where
  email : String
  username : String
  password : String
  firstName : String
  lastName : String
deriving DecidableEq, Repr

/-- LoginRequest of models.go. -/
structure LoginRequest where
  email : String
  password : String
deriving DecidableEq, Repr

/-- AuthResponse of models.go, over the token representation `τ`.
RefreshToken is a Go string with omitempty whose zero value "" marks the
field as absent; `none` models that empty string. -/
structure AuthResponse (τ : Type) where
  accessToken : τ
  refreshToken : Option τ
  user : User
  expiresIn : Int
deriving DecidableEq, Repr

/-- The Repository interface of repository.go, as observed through its
gorm implementation, over an explicit store state `σ`: lookups read the
state, Create and Update either fail or return the changed state. The
`GoErr.userNotFound` mapping of gorm.ErrRecordNotFound lives inside the
behavior (repository.go does it before the service sees the error). -/
structure Repository (σ : Type) where
  getByEmail : σ → String → Except GoErr User
  getByID : σ → String → Except GoErr User
  create : σ → User → Except GoErr σ
  update : σ → User → Except GoErr σ

/-- The TokenService interface of jwt.go as the credential service
consumes it, over the serialized-token representation `τ`. -/
structure TokenBehavior (τ : Type) where
  generateAccessToken : String → Except GoErr τ
  generateRefreshToken : String → Except GoErr τ
  validateAccessToken : τ → Except GoErr String
  validateRefreshToken : τ → Except GoErr String

/-- The User literal built inside Service.Register: fresh id, the request
fields, the bcrypt hash, active, CreatedAt = UpdatedAt = now. -/
def registerUser (newID : String) (req : RegisterRequest) (hashed : String)
    (now : Int) : User :=
  ⟨newID, req.email, req.username, req.firstName, req.lastName, hashed,
    "", true, now, now, 0⟩

/-- Service.Register of service.go. `hash` is bcrypt.GenerateFromPassword,
`newID` the value of uuid.New().String(). Returns the Go result together
with the store state after the call. Note the translation points: a
GetByEmail success short-circuits to ErrUserExists; every other failure
(hash, create, token generation) is returned unchanged. -/
def Service.Register {σ τ : Type} (repo : Repository σ) (ts : TokenBehavior τ)
    (hash : String → Except GoErr String) (newID : String) (now : Int)
    (st : σ) (req : RegisterRequest) : Except GoErr (AuthResponse τ) × σ :=
  match repo.getByEmail st req.email with
  | .ok _ => (.error .userExists, st)
  | .error _ =>
    match hash req.password with
    | .error e => (.error e, st)
    | .ok hashedPassword =>
      let user := registerUser newID req hashedPassword now
      match repo.create st user with
      | .error e => (.error e, st)
      | .ok st1 =>
        match ts.generateAccessToken user.id with
        | .error e => (.error e, st1)
        | .ok accessToken =>
          match ts.generateRefreshToken user.id with
          | .error e => (.error e, st1)
          | .ok refreshToken =>
            (.ok ⟨accessToken, some refreshToken, user, 3600⟩, st1)

/-- Service.Login of service.go. `pwMatches` is the success of
bcrypt.CompareHashAndPassword on (stored hash, supplied password). Any
GetByEmail failure and a hash mismatch both become ErrInvalidCredentials;
the last-login Update result is discarded (best effort), though a
successful Update does change the store. -/
def Service.Login {σ τ : Type} (repo : Repository σ) (ts : TokenBehavior τ)
    (pwMatches : String → String → Bool) (now : Int)
    (st : σ) (req : LoginRequest) : Except GoErr (AuthResponse τ) × σ :=
  match repo.getByEmail st req.email with
  | .error _ => (.error .invalidCredentials, st)
  | .ok user =>
    if ¬ pwMatches user.passwordHash req.password then
      (.error .invalidCredentials, st)
    else
      let user1 := { user with lastLoginAt := now }
      let st1 := match repo.update st user1 with
        | .ok s => s
        | .error _ => st
      match ts.generateAccessToken user1.id with
      | .error e => (.error e, st1)
      | .ok accessToken =>
        match ts.generateRefreshToken user1.id with
        | .error e => (.error e, st1)
        | .ok refreshToken =>
          (.ok ⟨accessToken, some refreshToken, user1, 3600⟩, st1)

/-- Service.RefreshToken of service.go: propagate any refresh-validation
error unchanged, translate any GetByID failure to ErrUserNotFound, issue a
new access token only, and leave the refresh-token field of the response
at its zero value. -/
def Service.RefreshToken {σ τ : Type} (repo : Repository σ)
    (ts : TokenBehavior τ) (st : σ) (refreshToken : τ) :
    Except GoErr (AuthResponse τ) × σ :=
  match ts.validateRefreshToken refreshToken with
  | .error e => (.error e, st)
  | .ok userID =>
    match repo.getByID st userID with
    | .error _ => (.error .userNotFound, st)
    | .ok user =>
      match ts.generateAccessToken user.id with
      | .error e => (.error e, st)
      | .ok accessToken => (.ok ⟨accessToken, none, user, 3600⟩, st)

/-- The users table as a list of records, newest first. -/
abbrev Store : Type := List User

/-- The gorm-backed repository of repository.go over a `Store`: First on a
Where clause returns the first matching record or maps
gorm.ErrRecordNotFound to ErrUserNotFound; Create surfaces the duplicate
key error of the unique indexes on email and username unchanged (the
repository layer does not translate it); Save upserts by primary key. -/
def storeRepo : Repository Store where
  getByEmail st e :=
    match st.find? (fun u => u.email == e) with
    | some u => .ok u
    | none => .error .userNotFound
  getByID st i :=
    match st.find? (fun u => u.id == i) with
    | some u => .ok u
    | none => .error .userNotFound
  create st u :=
    if st.any (fun v => v.email == u.email || v.username == u.username) then
      .error (.other "duplicate key")
    else
      .ok (u :: st)
  update st u :=
    .ok (st.map (fun v => if v.id == u.id then u else v))

/-- Number of records in the table carrying a given email. -/
def countEmail (st : Store) (e : String) : Nat :=
  (st.filter (fun u => u.email == e)).length

/-! ## Concrete fixtures for witnesses and counterexamples -/

/-- A bcrypt stand-in that always succeeds. -/
def hashOk : String → Except GoErr String := fun pw => .ok ("h-" ++ pw)

/-- A token service stand-in whose generation always succeeds and whose
validation recognises the tokens it generates for the ids the concrete
scenarios use. -/
def okTokens : TokenBehavior String where
  generateAccessToken uid := .ok ("a-" ++ uid)
  generateRefreshToken uid := .ok ("r-" ++ uid)
  validateAccessToken t :=
    if t = "a-id-1" then .ok "id-1"
    else if t = "a-id-9" then .ok "id-9"
    else .error .invalidToken
  validateRefreshToken t :=
    if t = "r-id-1" then .ok "id-1"
    else if t = "r-id-9" then .ok "id-9"
    else .error .invalidToken

/-- The concrete jwtService wired as the TokenBehavior the credential
service consumes (auth_service.go composes them this way), at a fixed
instant. -/
def jwtBehavior (j : jwtService) (now : Int) : TokenBehavior RawToken where
  generateAccessToken uid := .ok (j.GenerateAccessToken now uid)
  generateRefreshToken uid := .ok (j.GenerateRefreshToken now uid)
  validateAccessToken t := j.ValidateAccessToken now t
  validateRefreshToken t := j.ValidateRefreshToken now t

/-- An existing account used by several concrete scenarios. -/
def uAlice : User :=
  ⟨"id-1", "alice@x.com", "alice", "Alice", "L", "h-pw1", "", true, 0, 0, 0⟩

/-- A registration request reusing the username of `uAlice` under a fresh
email. -/
def reqBobSameUsername : RegisterRequest :=
  ⟨"bob@x.com", "alice", "pw2", "Bob", "M"⟩

/-- A registration request for a fresh account. -/
def reqCarol : RegisterRequest :=
  ⟨"carol@x.com", "carol", "pwc", "Carol", "N"⟩

/-- A token service stand-in whose signing step always faults. -/
def failTokens : TokenBehavior String where
  generateAccessToken _ := .error (.other "sign fail")
  generateRefreshToken _ := .error (.other "sign fail")
  validateAccessToken _ := .error .invalidToken
  validateRefreshToken _ := .error .invalidToken

/-- Password comparison agreeing with `hashOk`: a hash matches exactly the
password it was derived from. -/
def pwStd : String → String → Bool := fun hsh pw => hsh == "h-" ++ pw

/-- A jwtService configured with a half-hour access TTL. -/
def jwtHalf : jwtService := NewJWTService "s" 1800

/-! ## Helper lemmas about parsing -/

/-- A successful parse of a signed token returns its own payload and
certifies: HMAC algorithm, matching secret, expiry still in the future. -/
theorem parseWithClaims_signed_ok (secret : String) (now : Int)
    (c c' : Claims) (alg key : String)
    (h : parseWithClaims secret now (.signed c alg key) = .ok c') :
    c' = c ∧ isHMACAlg alg = true ∧ key = secret ∧ now < c.expiresAt := by
  by_cases h1 : isHMACAlg alg
  · by_cases h2 : key = secret
    · by_cases h3 : now < c.expiresAt
      · simp [parseWithClaims, h1, h2, h3] at h
        exact ⟨h.symm, h1, h2, h3⟩
      · simp [parseWithClaims, h1, h2, h3] at h
    · simp [parseWithClaims, h1, h2] at h
  · simp [parseWithClaims, h1] at h

/-- Any successful parse certifies the expiry is still in the future. -/
theorem parseWithClaims_ok_future (secret : String) (now : Int)
    (tok : RawToken) (c : Claims)
    (h : parseWithClaims secret now tok = .ok c) : now < c.expiresAt := by
  cases tok with
  | malformed r => simp [parseWithClaims] at h
  | signed c0 alg key =>
    obtain ⟨rfl, -, -, h4⟩ := parseWithClaims_signed_ok secret now c0 c alg key h
    exact h4

/-- validateToken can never return ErrExpiredToken: golang-jwt v5 already
rejects an expired token during parsing, so the explicit expiry branch in
jwt.go is unreachable. -/
theorem validateToken_never_expired (j : jwtService) (now : Int)
    (tok : RawToken) (tt : String) :
    j.validateToken now tok tt ≠ .error .expiredToken := by
  unfold jwtService.validateToken
  cases hp : parseWithClaims j.secret now tok with
  | error e => simp
  | ok c =>
    have hlt := parseWithClaims_ok_future j.secret now tok c hp
    have hne : ¬ (c.expiresAt < now) := by omega
    simp [hne]
    split <;> simp

/-! ## The claims -/

/-- Claim C1: for every user id, immediately after issuance (same instant,
positive configured access TTL), ValidateAccessToken applied to the token
produced by GenerateAccessToken returns that id with no error. -/
theorem C1_access_roundtrip (j : jwtService) (now : Int) (id : String)
    (h : 0 < j.accessTokenTTL) :
    j.ValidateAccessToken now (j.GenerateAccessToken now id) = .ok id := by
  have h1 : now < now + j.accessTokenTTL := by omega
  have h2 : ¬ (now + j.accessTokenTTL < now) := by omega
  simp [jwtService.ValidateAccessToken, jwtService.GenerateAccessToken,
        jwtService.validateToken, parseWithClaims, isHMACAlg, h1, h2]

/-- Witness for C1 at a concrete configuration. -/
theorem C1_access_roundtrip_witness :
    (0 : Int) < (NewJWTService "s" 3600).accessTokenTTL ∧
    (NewJWTService "s" 3600).ValidateAccessToken 0
      ((NewJWTService "s" 3600).GenerateAccessToken 0 "u1") = .ok "u1" :=
  ⟨by decide, C1_access_roundtrip (NewJWTService "s" 3600) 0 "u1" (by decide)⟩

/-- Claim C2 (code bug): a token signed HS256 with the service secret,
carrying the requested kind, whose embedded expiry is in the past, is
rejected with InvalidToken, not ExpiredToken — the claims validator of
golang-jwt v5 already fails ParseWithClaims on a past exp, so the err
branch fires first and the dedicated ErrExpiredToken branch of jwt.go is
dead: validateToken never returns ExpiredToken on any input. -/
theorem C2_expired_is_reported_invalid (j : jwtService) (now : Int)
    (c : Claims) (h : c.expiresAt < now) :
    j.validateToken now (.signed c "HS256" j.secret) c.type
      = .error .invalidToken ∧
    ∀ (tok : RawToken) (tt : String),
      j.validateToken now tok tt ≠ .error .expiredToken := by
  constructor
  · have h1 : ¬ (now < c.expiresAt) := by omega
    simp [jwtService.validateToken, parseWithClaims, isHMACAlg, h1]
  · intro tok tt
    exact validateToken_never_expired j now tok tt

/-- Witness for C2 at a concrete expired token. -/
theorem C2_expired_is_reported_invalid_witness :
    (NewJWTService "s" 3600).validateToken 100
      (.signed ⟨"u1", "access", 50, 0, "u1"⟩ "HS256" "s") "access"
      = .error .invalidToken :=
  (C2_expired_is_reported_invalid (NewJWTService "s" 3600) 100
    ⟨"u1", "access", 50, 0, "u1"⟩ (by decide)).1

/-- Claim C3: a token whose signature does not verify under the service
secret, or whose algorithm is outside the HMAC family, or whose kind is
not the requested one, is rejected with InvalidToken (and hence never
ExpiredToken), whatever its embedded expiry; in particular a fresh access
token fails ValidateRefreshToken with InvalidToken and vice versa. -/
theorem C3_invalid_paths (j : jwtService) (now : Int) (c : Claims)
    (alg key tt id : String) :
    ((isHMACAlg alg = false ∨ key ≠ j.secret ∨ c.type ≠ tt) →
      j.validateToken now (.signed c alg key) tt = .error .invalidToken) ∧
    (0 < j.accessTokenTTL →
      j.ValidateRefreshToken now (j.GenerateAccessToken now id)
        = .error .invalidToken) ∧
    (0 < j.refreshTokenTTL →
      j.ValidateAccessToken now (j.GenerateRefreshToken now id)
        = .error .invalidToken) := by
  refine ⟨?_, ?_, ?_⟩
  · intro hbad
    cases hp : parseWithClaims j.secret now (.signed c alg key) with
    | error e => simp [jwtService.validateToken, hp]
    | ok c' =>
      obtain ⟨rfl, hA, hK, -⟩ :=
        parseWithClaims_signed_ok j.secret now c c' alg key hp
      rcases hbad with h | h | h
      · simp [hA] at h
      · exact absurd hK h
      · simp [jwtService.validateToken, hp, h]
  · intro h
    have h1 : now < now + j.accessTokenTTL := by omega
    simp [jwtService.ValidateRefreshToken, jwtService.GenerateAccessToken,
          jwtService.validateToken, parseWithClaims, isHMACAlg, h1]
  · intro h
    have h1 : now < now + j.refreshTokenTTL := by omega
    simp [jwtService.ValidateAccessToken, jwtService.GenerateRefreshToken,
          jwtService.validateToken, parseWithClaims, isHMACAlg, h1]

/-- Witness for C3: a none-algorithm token, a fresh access token fed to
ValidateRefreshToken, and a fresh refresh token fed to
ValidateAccessToken, all at a concrete configuration. -/
theorem C3_invalid_paths_witness :
    (NewJWTService "s" 3600).validateToken 0
      (.signed ⟨"u1", "access", 100, 0, "u1"⟩ "none" "s") "access"
      = .error .invalidToken ∧
    (NewJWTService "s" 3600).ValidateRefreshToken 0
      ((NewJWTService "s" 3600).GenerateAccessToken 0 "u1")
      = .error .invalidToken ∧
    (NewJWTService "s" 3600).ValidateAccessToken 0
      ((NewJWTService "s" 3600).GenerateRefreshToken 0 "u1")
      = .error .invalidToken := by
  have h := C3_invalid_paths (NewJWTService "s" 3600) 0
    ⟨"u1", "access", 100, 0, "u1"⟩ "none" "s" "access" "u1"
  exact ⟨h.1 (Or.inl (by decide)), h.2.1 (by decide), h.2.2 (by decide)⟩

/-- Counterexample to C6 as stated: the pre-check passes (no record with
the new email), Create fails with the duplicate-key condition on the
username index, and Register surfaces that raw store error, not
UserExists. -/
theorem C6_counterexample_raw_duplicate :
    (Service.Register storeRepo okTokens hashOk "id-2" 5 [uAlice]
        reqBobSameUsername).1 = .error (.other "duplicate key") ∧
    (Service.Register storeRepo okTokens hashOk "id-2" 5 [uAlice]
        reqBobSameUsername).1 ≠ .error .userExists := by
  constructor <;> decide

/-- Claim C6 amended: when the existence pre-check passes and the store
Create call fails — the duplicate-key condition included — Register
returns the store error unchanged; neither the service nor the repository
maps it to UserExists. -/
theorem C6_amended_create_passthrough {σ τ : Type} (repo : Repository σ)
    (ts : TokenBehavior τ) (hash : String → Except GoErr String)
    (newID : String) (now : Int) (st : σ) (req : RegisterRequest)
    (e0 e : GoErr) (hp : String)
    (h1 : repo.getByEmail st req.email = .error e0)
    (h2 : hash req.password = .ok hp)
    (h3 : repo.create st (registerUser newID req hp now) = .error e) :
    Service.Register repo ts hash newID now st req = (.error e, st) := by
  simp [Service.Register, h1, h2, h3]

/-- Witness for the amended C6 at the concrete duplicate-username store. -/
theorem C6_amended_create_passthrough_witness :
    Service.Register storeRepo okTokens hashOk "id-2" 5 [uAlice]
      reqBobSameUsername = (.error (.other "duplicate key"), [uAlice]) :=
  C6_amended_create_passthrough storeRepo okTokens hashOk "id-2" 5 [uAlice]
    reqBobSameUsername .userNotFound (.other "duplicate key") "h-pw2"
    (by decide) (by decide) (by decide)

/-- Claim C7: Login answers InvalidCredentials both when no user with the
email exists (any lookup failure) and when the user exists but the
password does not match the stored hash — never UserNotFound. -/
theorem C7_login_uniform_invalid_credentials {σ τ : Type}
    (repo : Repository σ) (ts : TokenBehavior τ)
    (pwMatches : String → String → Bool) (now : Int) (st : σ)
    (req : LoginRequest) :
    (∀ e, repo.getByEmail st req.email = .error e →
      Service.Login repo ts pwMatches now st req
        = (.error .invalidCredentials, st)) ∧
    (∀ u, repo.getByEmail st req.email = .ok u →
      pwMatches u.passwordHash req.password = false →
      Service.Login repo ts pwMatches now st req
        = (.error .invalidCredentials, st)) := by
  constructor
  · intro e h1
    simp [Service.Login, h1]
  · intro u h1 h2
    simp [Service.Login, h1, h2]

/-- Witness for C7: unknown email, then known email with a wrong
password, over the concrete store holding one account. -/
theorem C7_login_uniform_invalid_credentials_witness :
    Service.Login storeRepo okTokens pwStd 9 [uAlice] ⟨"nobody@x.com", "pw"⟩
      = (.error .invalidCredentials, [uAlice]) ∧
    Service.Login storeRepo okTokens pwStd 9 [uAlice] ⟨"alice@x.com", "bad"⟩
      = (.error .invalidCredentials, [uAlice]) := by
  constructor
  · exact (C7_login_uniform_invalid_credentials storeRepo okTokens pwStd 9
      [uAlice] ⟨"nobody@x.com", "pw"⟩).1 .userNotFound (by decide)
  · exact (C7_login_uniform_invalid_credentials storeRepo okTokens pwStd 9
      [uAlice] ⟨"alice@x.com", "bad"⟩).2 uAlice (by decide) (by decide)

/-- Claim C8: RefreshToken propagates a refresh-validation error
unchanged — for every repository whatsoever, so no store access can
influence the outcome — maps any GetByID failure for a validated token to
UserNotFound, and on success returns a fresh access token with the
refresh-token field left empty and the store untouched. -/
theorem C8_refresh_semantics {σ τ : Type} (repo : Repository σ)
    (ts : TokenBehavior τ) (st : σ) (rtok : τ) :
    (∀ e, ts.validateRefreshToken rtok = .error e →
      Service.RefreshToken repo ts st rtok = (.error e, st)) ∧
    (∀ uid e, ts.validateRefreshToken rtok = .ok uid →
      repo.getByID st uid = .error e →
      Service.RefreshToken repo ts st rtok = (.error .userNotFound, st)) ∧
    (∀ uid u atok, ts.validateRefreshToken rtok = .ok uid →
      repo.getByID st uid = .ok u →
      ts.generateAccessToken u.id = .ok atok →
      Service.RefreshToken repo ts st rtok = (.ok ⟨atok, none, u, 3600⟩, st)) := by
  refine ⟨?_, ?_, ?_⟩
  · intro e h1
    simp [Service.RefreshToken, h1]
  · intro uid e h1 h2
    simp [Service.RefreshToken, h1, h2]
  · intro uid u atok h1 h2 h3
    simp [Service.RefreshToken, h1, h2, h3]

/-- Witness for C8: an unknown token propagates InvalidToken, a valid
token for a deleted user gives UserNotFound, and a valid token for a live
user gives a new access token with no refresh token in the response. -/
theorem C8_refresh_semantics_witness :
    Service.RefreshToken storeRepo okTokens [uAlice] "zzz"
      = (.error .invalidToken, [uAlice]) ∧
    Service.RefreshToken storeRepo okTokens [uAlice] "r-id-9"
      = (.error .userNotFound, [uAlice]) ∧
    Service.RefreshToken storeRepo okTokens [uAlice] "r-id-1"
      = (.ok ⟨"a-id-1", none, uAlice, 3600⟩, [uAlice]) := by
  refine ⟨?_, ?_, ?_⟩
  · exact (C8_refresh_semantics storeRepo okTokens [uAlice] "zzz").1
      .invalidToken (by decide)
  · exact (C8_refresh_semantics storeRepo okTokens [uAlice] "r-id-9").2.1
      "id-9" .userNotFound (by decide) (by decide)
  · exact (C8_refresh_semantics storeRepo okTokens [uAlice] "r-id-1").2.2
      "id-1" uAlice "a-id-1" (by decide) (by decide) (by decide)

/-- Counterexample to C9 as stated: with the access TTL configured to
1800 seconds, a successful Register still reports ExpiresIn = 3600. -/
theorem C9_counterexample_hardcoded_3600 :
    jwtHalf.accessTokenTTL = 1800 ∧
    Except.map (fun r => AuthResponse.expiresIn r)
      (Service.Register storeRepo (jwtBehavior jwtHalf 0) hashOk "id-1" 0
        ([] : Store) reqCarol).1 = .ok 3600 ∧
    (3600 : Int) ≠ jwtHalf.accessTokenTTL := by
  refine ⟨by decide, by decide, by decide⟩

/-- Claim C9 amended: every successful AuthResponse from Register, Login
or RefreshToken carries the hard-coded ExpiresIn = 3600; it equals the
configured access TTL only when that TTL is one hour. -/
theorem C9_amended_expires_in_const {σ τ : Type} (repo : Repository σ)
    (ts : TokenBehavior τ) (hash : String → Except GoErr String)
    (pwMatches : String → String → Bool) (newID : String) (now : Int)
    (st : σ) (req : RegisterRequest) (lreq : LoginRequest) (rtok : τ) :
    (∀ resp st2,
      Service.Register repo ts hash newID now st req = (.ok resp, st2) →
      resp.expiresIn = 3600) ∧
    (∀ resp st2,
      Service.Login repo ts pwMatches now st lreq = (.ok resp, st2) →
      resp.expiresIn = 3600) ∧
    (∀ resp st2,
      Service.RefreshToken repo ts st rtok = (.ok resp, st2) →
      resp.expiresIn = 3600) := by
  refine ⟨?_, ?_, ?_⟩ <;> intro resp st2 h
  · simp only [Service.Register] at h
    split at h
    · simp at h
    · split at h
      · simp at h
      · split at h
        · simp at h
        · split at h
          · simp at h
          · split at h
            · simp at h
            · simp at h
              simp [← h.1]
  · simp only [Service.Login] at h
    split at h
    · simp at h
    · split at h
      · simp at h
      · split at h
        · simp at h
        · split at h
          · simp at h
          · simp at h
            simp [← h.1]
  · simp only [Service.RefreshToken] at h
    split at h
    · simp at h
    · split at h
      · simp at h
      · split at h
        · simp at h
        · simp at h
          simp [← h.1]

/-- Witness for the amended C9 on concrete successful runs of all three
operations. -/
theorem C9_amended_expires_in_const_witness :
    (∀ resp st2,
      Service.Register storeRepo okTokens hashOk "id-1" 0 ([] : Store)
        reqCarol = (.ok resp, st2) → resp.expiresIn = 3600) ∧
    (∀ resp st2,
      Service.Login storeRepo okTokens pwStd 9 [uAlice] ⟨"alice@x.com", "pw1"⟩
        = (.ok resp, st2) → resp.expiresIn = 3600) ∧
    (∀ resp st2,
      Service.RefreshToken storeRepo okTokens [uAlice] "r-id-1"
        = (.ok resp, st2) → resp.expiresIn = 3600) := by
  refine ⟨?_, ?_, ?_⟩
  · exact (C9_amended_expires_in_const storeRepo okTokens hashOk pwStd "id-1"
      0 ([] : Store) reqCarol ⟨"alice@x.com", "pw1"⟩ "r-id-1").1
  · exact (C9_amended_expires_in_const storeRepo okTokens hashOk pwStd "id-1"
      9 [uAlice] reqCarol ⟨"alice@x.com", "pw1"⟩ "r-id-1").2.1
  · exact (C9_amended_expires_in_const storeRepo okTokens hashOk pwStd "id-1"
      0 [uAlice] reqCarol ⟨"alice@x.com", "pw1"⟩ "r-id-1").2.2

/-- Claim C10: when the store create succeeds and a subsequent token
generation fails, Register returns that error together with the
post-create store state — the created record stays persisted (for the
concrete store, whatever Create acknowledged contains the record). -/
theorem C10_register_not_atomic {σ τ : Type} (repo : Repository σ)
    (ts : TokenBehavior τ) (hash : String → Except GoErr String)
    (newID : String) (now : Int) (st : σ) (req : RegisterRequest) :
    (∀ e0 hp st1 e, repo.getByEmail st req.email = .error e0 →
      hash req.password = .ok hp →
      repo.create st (registerUser newID req hp now) = .ok st1 →
      ts.generateAccessToken newID = .error e →
      Service.Register repo ts hash newID now st req = (.error e, st1)) ∧
    (∀ e0 hp st1 atok e, repo.getByEmail st req.email = .error e0 →
      hash req.password = .ok hp →
      repo.create st (registerUser newID req hp now) = .ok st1 →
      ts.generateAccessToken newID = .ok atok →
      ts.generateRefreshToken newID = .error e →
      Service.Register repo ts hash newID now st req = (.error e, st1)) ∧
    (∀ (sst st1 : Store) (u : User), storeRepo.create sst u = .ok st1 →
      u ∈ st1) := by
  refine ⟨?_, ?_, ?_⟩
  · intro e0 hp st1 e h1 h2 h3 h4
    simp [Service.Register, registerUser, h1, h2, h3, h4] at *
  · intro e0 hp st1 atok e h1 h2 h3 h4 h5
    simp [Service.Register, registerUser, h1, h2, h3, h4, h5] at *
  · intro sst st1 u h
    simp only [storeRepo] at h
    split at h
    · simp at h
    · simp at h
      simp [← h]

/-- Witness for C10: with a signing fault after a successful create, the
error surfaces and the created record is in the returned store state. -/
theorem C10_register_not_atomic_witness :
    Service.Register storeRepo failTokens hashOk "id-2" 7 ([] : Store)
      reqCarol = (.error (.other "sign fail"),
        [registerUser "id-2" reqCarol "h-pwc" 7]) ∧
    registerUser "id-2" reqCarol "h-pwc" 7
      ∈ [registerUser "id-2" reqCarol "h-pwc" 7] := by
  constructor
  · exact (C10_register_not_atomic storeRepo failTokens hashOk "id-2" 7
      ([] : Store) reqCarol).1 .userNotFound "h-pwc"
      [registerUser "id-2" reqCarol "h-pwc" 7] (.other "sign fail")
      (by decide) (by decide) (by decide) (by decide)
  · exact (C10_register_not_atomic storeRepo failTokens hashOk "id-2" 7
      ([] : Store) reqCarol).2.2 [] [registerUser "id-2" reqCarol "h-pwc" 7]
      (registerUser "id-2" reqCarol "h-pwc" 7) (by decide)

/-- A table with no record under an email makes the lookup fail with the
mapped not-found error. -/
theorem storeRepo_getByEmail_count_zero (st : Store) (e : String)
    (h : countEmail st e = 0) :
    storeRepo.getByEmail st e = .error .userNotFound := by
  have h1 : st.filter (fun u => u.email == e) = [] := by
    unfold countEmail at h
    exact List.length_eq_zero.mp h
  have h2 : st.find? (fun u => u.email == e) = none := by
    rw [List.find?_eq_none]
    intro x hx
    have := List.filter_eq_nil_iff.mp h1 x hx
    simpa using this
  simp [storeRepo, h2]

/-- On the concrete store, a successful Register acknowledges a hash and
returns exactly the table extended by the record it built. -/
theorem Register_storeRepo_ok_state {τ : Type} (ts : TokenBehavior τ)
    (hash : String → Except GoErr String) (newID : String) (now : Int)
    (sst : Store) (req : RegisterRequest) (resp : AuthResponse τ)
    (sst2 : Store)
    (h : Service.Register storeRepo ts hash newID now sst req
      = (.ok resp, sst2)) :
    ∃ hp, hash req.password = .ok hp ∧
      sst2 = registerUser newID req hp now :: sst := by
  cases hge : storeRepo.getByEmail sst req.email with
  | ok u => simp [Service.Register, hge] at h
  | error e0 =>
    cases hh : hash req.password with
    | error e => simp [Service.Register, hge, hh] at h
    | ok hp =>
      refine ⟨hp, rfl, ?_⟩
      cases hc : storeRepo.create sst (registerUser newID req hp now) with
      | error e => simp [Service.Register, hge, hh, hc] at h
      | ok st1 =>
        have hst1 : st1 = registerUser newID req hp now :: sst := by
          revert hc
          simp only [storeRepo]
          split
          · intro hc; simp at hc
          · intro hc; simp at hc; exact hc.symm
        have hid : (registerUser newID req hp now).id = newID := rfl
        cases ha : ts.generateAccessToken newID with
        | error e =>
          simp [Service.Register, hge, hh, hc, hid, ha] at h
        | ok atok =>
          cases hr : ts.generateRefreshToken newID with
          | error e =>
            simp [Service.Register, hge, hh, hc, hid, ha, hr] at h
          | ok rtok =>
            simp [Service.Register, hge, hh, hc, hid, ha, hr] at h
            rw [← h.2]
            exact hst1

/-- Claim C5: when a record with the request email already exists and the
lookup returns it, Register fails with UserExists at once, for every hash
function, token service, fresh id and instant, with the store unchanged;
and on the concrete store, after a successful Register on a previously
unused email, a second Register with the same email fails with UserExists
and the table still holds exactly one record under that email. -/
theorem C5_register_duplicate_email {σ τ : Type} (repo : Repository σ)
    (ts : TokenBehavior τ) (st : σ) (req : RegisterRequest) :
    (∀ u, repo.getByEmail st req.email = .ok u →
      ∀ (hash : String → Except GoErr String) (newID : String) (now : Int),
        Service.Register repo ts hash newID now st req
          = (.error .userExists, st)) ∧
    (∀ (hash : String → Except GoErr String) (newID : String) (now : Int)
        (sst sst2 : Store) (resp : AuthResponse τ),
      countEmail sst req.email = 0 →
      Service.Register storeRepo ts hash newID now sst req
        = (.ok resp, sst2) →
      countEmail sst2 req.email = 1 ∧
      ∀ (req2 : RegisterRequest), req2.email = req.email →
        ∀ (ts2 : TokenBehavior τ) (hash2 : String → Except GoErr String)
          (newID2 : String) (now2 : Int),
          Service.Register storeRepo ts2 hash2 newID2 now2 sst2 req2
            = (.error .userExists, sst2)) := by
  constructor
  · intro u hu hash newID now
    simp [Service.Register, hu]
  · intro hash newID now sst sst2 resp hcnt hreg
    obtain ⟨hp, -, hst2⟩ :=
      Register_storeRepo_ok_state ts hash newID now sst req resp sst2 hreg
    subst hst2
    constructor
    · have hstep : countEmail (registerUser newID req hp now :: sst) req.email
          = countEmail sst req.email + 1 := by
        unfold countEmail
        rw [List.filter_cons]
        simp [registerUser]
      rw [hstep, hcnt]
    · intro req2 hreq2 ts2 hash2 newID2 now2
      have hfound :
          storeRepo.getByEmail (registerUser newID req hp now :: sst)
            req2.email = .ok (registerUser newID req hp now) := by
        have hpa : (fun u => u.email == req2.email)
            (registerUser newID req hp now) = true := by
          simp [registerUser, hreq2]
        have hf : List.find? (fun u => u.email == req2.email)
            (registerUser newID req hp now :: sst)
            = some (registerUser newID req hp now) :=
          List.find?_cons_of_pos _ hpa
        simp [storeRepo, hf]
      simp [Service.Register, hfound]

/-- Witness for C5: registering a taken email is refused over the
one-account store, and the concrete first-then-second registration
scenario on an empty table ends with one record and a UserExists
refusal. -/
theorem C5_register_duplicate_email_witness :
    Service.Register storeRepo okTokens hashOk "id-7" 3 [uAlice]
      ⟨"alice@x.com", "alice2", "pw", "A", "B"⟩
      = (.error .userExists, [uAlice]) ∧
    (countEmail [registerUser "id-1" reqCarol "h-pwc" 0] reqCarol.email = 1 ∧
      ∀ (req2 : RegisterRequest), req2.email = reqCarol.email →
        ∀ (ts2 : TokenBehavior String)
          (hash2 : String → Except GoErr String)
          (newID2 : String) (now2 : Int),
          Service.Register storeRepo ts2 hash2 newID2 now2
            [registerUser "id-1" reqCarol "h-pwc" 0] req2
            = (.error .userExists,
                [registerUser "id-1" reqCarol "h-pwc" 0])) := by
  constructor
  · exact (C5_register_duplicate_email storeRepo okTokens [uAlice]
      ⟨"alice@x.com", "alice2", "pw", "A", "B"⟩).1 uAlice (by decide)
      hashOk "id-7" 3
  · exact (C5_register_duplicate_email storeRepo okTokens ([] : Store)
      reqCarol).2 hashOk "id-1" 0 ([] : Store)
      [registerUser "id-1" reqCarol "h-pwc" 0]
      ⟨"a-id-1", some "r-id-1", registerUser "id-1" reqCarol "h-pwc" 0, 3600⟩
      (by decide) (by decide)

end Stellarium
